import Mathlib

/-!
Verification of the resource-lifecycle orchestration layer of the ec2-slackbot
repository. The Python classes `AWSHandler` (ec2_slackbot/aws_handler.py) and
`SlackHandler` (ec2_slackbot/slack_handler.py) are shallowly embedded: each
provider (boto3) call is recorded as a `Call` value, cloud state is a list of
volumes and a key-pair table, and the command/interaction dispatch is a pure
function from its inputs to the trace of provider calls, the chat messages
posted, and the immediate reply.
-/

namespace EC2Slackbot

/-- One attachment entry of a volume, as reported by describe_volumes:
an instance id plus the device path. -/
structure Attachment where
  instanceId : String
  device : String
  deriving DecidableEq, Repr

/-- A provider-side EBS volume: id, size in GiB, the value of its `User` tag,
and its attachment list. -/
structure Volume where
  id : String
  size : Nat
  user : String
  attachments : List Attachment
  deriving DecidableEq, Repr

/-- The dictionary returned by `AWSHandler.get_volume_for_user`
(id, size, attachments). -/
structure VolumeInfo where
  id : String
  size : Nat
  attachments : List Attachment
  deriving DecidableEq, Repr

/-- One boto3 EC2 client call, as issued by `AWSHandler`. Waiter invocations
(`get_waiter(...).wait(...)`) and the poll sleep are recorded as calls too, so
that ordering between mutations and waits is visible in the trace. -/
inductive Call where
  | describeVolumes (user_name : String)
  | describeInstances (instance_ids : List String)
  | describeVolumesModifications (volume_id : Option String)
  | runInstances (ami_id instance_type key_name : String) (root_ebs_size : Nat)
  | terminateInstances (instance_ids : List String)
  | stopInstances (instance_ids : List String)
  | startInstances (instance_ids : List String)
  | modifyInstanceAttribute (instance_id attr value : String)
  | createVolume (user_name : String) (size : Nat)
  | modifyVolume (volume_id : Option String) (size : Nat)
  | attachVolume (device : String) (instance_id : String) (volume_id : Option String)
  | detachVolume (volume_id instance_id device : String) (force : Bool)
  | deleteVolume (volume_id : String)
  | deleteKeyPair (key_name : String)
  | importKeyPair (key_name public_key : String)
  | waitInstanceRunning (instance_ids : List String)
  | waitInstanceStopped (instance_ids : List String)
  | waitInstanceTerminated (instance_ids : List String)
  | waitInstanceStatusOk (instance_ids : List String)
  | waitVolumeAvailable (volume_id : String)
  | waitVolumeInUse (volume_id : Option String)
  | waitVolumeDeleted (volume_id : String)
  | sleep (seconds : Nat)
  deriving DecidableEq, Repr

/-- Whether a call mutates provider state. Describe calls, waiters (which only
poll state) and the sleep are read-only; every other call is a mutation. -/
def Call.isMutating : Call → Bool
  | Call.describeVolumes _ => false
  | Call.describeInstances _ => false
  | Call.describeVolumesModifications _ => false
  | Call.waitInstanceRunning _ => false
  | Call.waitInstanceStopped _ => false
  | Call.waitInstanceTerminated _ => false
  | Call.waitInstanceStatusOk _ => false
  | Call.waitVolumeAvailable _ => false
  | Call.waitVolumeInUse _ => false
  | Call.waitVolumeDeleted _ => false
  | Call.sleep _ => false
  | _ => true

/-- Whether a call is a detach_volume provider call. -/
def Call.isDetach : Call → Bool
  | Call.detachVolume _ _ _ _ => true
  | _ => false

/-- Whether a call is a describe_volumes_modifications poll. -/
def Call.isPollDescribe : Call → Bool
  | Call.describeVolumesModifications _ => true
  | _ => false

/-- Whether a call is a sleep between polls. -/
def Call.isSleepCall : Call → Bool
  | Call.sleep _ => true
  | _ => false

/-- Whether a call is a create_volume provider call. -/
def Call.isCreateVolume : Call → Bool
  | Call.createVolume _ _ => true
  | _ => false

/-- Embedding of `AWSHandler.get_volume_for_user`: describe_volumes filtered by
the `User` tag; returns `None` when the list is empty, otherwise the dictionary
built from the FIRST volume of the response. -/
def get_volume_for_user (volumes : List Volume) (user_name : String) :
    Option VolumeInfo :=
  match volumes.filter (fun v => v.user == user_name) with
  | [] => none
  | v :: _ => some { id := v.id, size := v.size, attachments := v.attachments }

/-- The provider key-pair table: key name paired with public-key material. -/
abbrev KeyState := List (String × String)

/-- Embedding of `ec2_client.delete_key_pair`: removes the key pair with the
given name, raising a ClientError when none exists. -/
def delete_key_pair (st : KeyState) (key_name : String) : Except String KeyState :=
  if st.any (fun p => p.1 == key_name) then
    Except.ok (st.filter (fun p => p.1 != key_name))
  else
    Except.error "InvalidKeyPair.NotFound"

/-- Embedding of `ec2_client.import_key_pair`: adds a key pair, raising a
ClientError when one with the same name already exists. -/
def import_key_pair (st : KeyState) (key_name public_key : String) :
    Except String KeyState :=
  if st.any (fun p => p.1 == key_name) then
    Except.error "InvalidKeyPair.Duplicate"
  else
    Except.ok (st ++ [(key_name, public_key)])

/-- Embedding of `AWSHandler.create_key_pair` (aws_handler.py lines 120-128):
try to delete the key pair named after the user, ignoring the ClientError when
it does not exist, then import the new public key. -/
def create_key_pair (st : KeyState) (user_name public_key : String) :
    Except String KeyState :=
  let st1 := match delete_key_pair st user_name with
    | Except.ok s => s
    | Except.error _ => st
  import_key_pair st1 user_name public_key

/-- Public keys resolvable for a given key name in the provider table. -/
def resolvable_keys (st : KeyState) (user_name : String) : List String :=
  (st.filter (fun p => p.1 == user_name)).map (fun p => p.2)

/-- Trace of `AWSHandler.create_key_pair` as provider calls
(delete-if-exists, then import). -/
def create_key_pair_calls (user_name public_key : String) : List Call :=
  [Call.deleteKeyPair user_name, Call.importKeyPair user_name public_key]

/-- Embedding of `AWSHandler.terminate_ec2_instances`. -/
def terminate_ec2_instances (instance_ids : List String) : List Call :=
  [Call.terminateInstances instance_ids, Call.waitInstanceTerminated instance_ids]

/-- Embedding of `AWSHandler.stop_ec2_instances`. -/
def stop_ec2_instances (instance_ids : List String) : List Call :=
  [Call.stopInstances instance_ids, Call.waitInstanceStopped instance_ids]

/-- Embedding of `AWSHandler.start_ec2_instances`. -/
def start_ec2_instances (instance_ids : List String) : List Call :=
  [Call.startInstances instance_ids, Call.waitInstanceRunning instance_ids]

/-- Embedding of `AWSHandler.change_instance_type` (aws_handler.py lines
335-343): unconditionally stop the instance, modify its instanceType
attribute, and start it again. It performs no equality check on the current
type. -/
def change_instance_type (instance_id instance_type : String) : List Call :=
  stop_ec2_instances [instance_id]
    ++ [Call.modifyInstanceAttribute instance_id "instanceType" instance_type]
    ++ start_ec2_instances [instance_id]

/-- Embedding of `AWSHandler.create_volume`: create a volume tagged with the
user, wait until available, and return the provider-assigned volume id
(`new_volume_id` stands for the id in the create_volume response). -/
def create_volume (user_name : String) (size : Nat) (new_volume_id : String) :
    String × List Call :=
  (new_volume_id,
   [Call.createVolume user_name size, Call.waitVolumeAvailable new_volume_id])

/-- Embedding of `AWSHandler.attach_volume`: attach at device /dev/sdh, then
wait until the volume is in use. -/
def attach_volume (instance_id : String) (volume_id : Option String) : List Call :=
  [Call.attachVolume "/dev/sdh" instance_id volume_id,
   Call.waitVolumeInUse volume_id]

/-- Embedding of `AWSHandler.detach_volume` (aws_handler.py lines 387-399):
one detach call per attachment, addressed by that attachment instance id and
device, then a single wait until the volume is available. -/
def detach_volume (volume_id : String) (attachments : List Attachment) : List Call :=
  (attachments.map
    (fun a => Call.detachVolume volume_id a.instanceId a.device false))
    ++ [Call.waitVolumeAvailable volume_id]

/-- Embedding of `AWSHandler.destroy_volume`. -/
def destroy_volume (volume_id : String) : List Call :=
  [Call.deleteVolume volume_id, Call.waitVolumeDeleted volume_id]

/-- One describe_volumes_modifications response: either an empty
VolumesModifications list, or the ModificationState of its first entry. -/
inductive ModPoll where
  | noModifications
  | modState (s : String)
  deriving DecidableEq, Repr

/-- Whether a poll response keeps the resize loop going: a state other than
completed. An empty modification list or a completed state stops the loop. -/
def ModPoll.isOngoing : ModPoll → Bool
  | ModPoll.noModifications => false
  | ModPoll.modState s => s != "completed"

/-- The poll loop of `AWSHandler.resize_volume` (aws_handler.py lines 367-375):
`for _ in range(60)`, each iteration describes the volume modifications
(response given by `oracle`), breaks when the list is empty or the state is
completed, and otherwise sleeps one second. -/
def resize_poll (oracle : Nat → ModPoll) (volume_id : Option String) :
    Nat → Nat → List Call
  | 0, _ => []
  | fuel + 1, i =>
    Call.describeVolumesModifications volume_id ::
      match oracle i with
      | ModPoll.noModifications => []
      | ModPoll.modState s =>
        if s == "completed" then []
        else Call.sleep 1 :: resize_poll oracle volume_id fuel (i + 1)

/-- Embedding of `AWSHandler.resize_volume` (aws_handler.py lines 362-375):
modify_volume, then the bounded poll loop. The function body contains no raise
and no timeout error: it always falls through to a normal return, which the
second component records. -/
def resize_volume (oracle : Nat → ModPoll) (volume_id : Option String)
    (size : Nat) : List Call × Except String Unit :=
  (Call.modifyVolume volume_id size :: resize_poll oracle volume_id 60 0,
   Except.ok ())

/-- Embedding of the call sequence of `AWSHandler.launch_ec2_instance`
(aws_handler.py lines 294-309): run_instances, wait until running, then (for
mount option ebs only) attach the volume at /dev/sdh and wait until in use,
and finally wait for the instance status check. `run_instance_id` stands for
the id in the run_instances response; the UserData boot-script text is
presentation-only and not part of the call trace. -/
def launch_ec2_instance (ami_id ami_user instance_type : String)
    (root_ebs_size : Nat) (user_name : String) (startup_script : Option String)
    (mount_option : Option String) (volume_id : Option String)
    (run_instance_id : String) : String × List Call :=
  let instance_id := run_instance_id
  (instance_id,
    [Call.runInstances ami_id instance_type user_name root_ebs_size,
     Call.waitInstanceRunning [instance_id]]
    ++ (if mount_option == some "ebs" then
          [Call.attachVolume "/dev/sdh" instance_id volume_id,
           Call.waitVolumeInUse volume_id]
        else [])
    ++ [Call.waitInstanceStatusOk [instance_id]])

/-- Effect of one provider call on the volume table: attach_volume appends an
attachment to the addressed volume; every other call leaves the table
unchanged (instance state is not tracked here). -/
def applyCall (volumes : List Volume) : Call → List Volume
  | Call.attachVolume device instance_id (some volume_id) =>
    volumes.map (fun v =>
      if v.id == volume_id then
        { v with attachments :=
            v.attachments ++ [{ instanceId := instance_id, device := device }] }
      else v)
  | _ => volumes

/-- Folds a call trace over the volume table. -/
def runCalls (volumes : List Volume) (calls : List Call) : List Volume :=
  calls.foldl applyCall volumes

/-- Outcome of the function executed inside a `handle_aws_command` background
thread: a normal return value, a boto3 ClientError, or an exception of any
other type. -/
inductive FnResult (α : Type) where
  | ok (value : α)
  | clientError (err : String)
  | otherError (err : String)
  deriving Repr

/-- What the background thread of `handle_aws_command` produces: the chat
messages posted (channel, text) and the exception, if any, that escaped the
thread uncaught. -/
structure CommandOutcome where
  messages : List (String × String)
  uncaught : Option String
  deriving DecidableEq, Repr

/-- Embedding of `SlackHandler.handle_aws_command` (slack_handler.py lines
793-819). The spawned thread runs the function and posts the formatted
success message to the user on return, or the formatted error message when a
`ClientError` is raised; any other exception is not caught and escapes the
thread. The thread body is modelled as executing immediately, with the
function represented by its outcome. -/
def handle_aws_command {α : Type} (result : FnResult α) (user_id : String)
    (success_message : α → String) (error_message : String → String) :
    CommandOutcome :=
  match result with
  | FnResult.ok v => { messages := [(user_id, success_message v)], uncaught := none }
  | FnResult.clientError e =>
    { messages := [(user_id, error_message e)], uncaught := none }
  | FnResult.otherError e => { messages := [], uncaught := some e }

/-- One AMI catalog entry from the configuration
(label to image id, default OS user and startup-script fragment). -/
structure AmiInfo where
  id : String
  user : String
  startup_script : Option String
  deriving DecidableEq, Repr

/-- The slice of the configuration the dispatcher reads. -/
structure Config where
  max_volume_size : Nat
  amis : String → AmiInfo
  zone : String

/-- The provider environment the dispatcher observes: the volume table and
the oracles for describe responses and provider-assigned ids. -/
structure Env where
  volumes : List Volume
  instance_type_of : String → String
  new_instance_id : String
  new_volume_id : String
  mod_oracle : Nat → ModPoll

/-- The typed form values extracted from a modal submission payload. -/
structure FormValues where
  public_key : String
  ami_choice : String
  instance_type_choice : String
  root_ebs_size : Nat
  mount_option : String
  startup_script : Option String
  selected_instances : List String
  selected_instance : String
  change_selected_instance : String
  new_instance_type : String
  volume_size : Nat

/-- Result of one `handle_interactions` invocation: the provider calls issued
(including those of the dispatched operation, modelled on its success path),
the chat messages posted, and whether the unhandled-callback warning was
logged. -/
structure InteractionResult where
  trace : List Call
  messages : List (String × String)
  warning : Bool
  deriving DecidableEq, Repr

/-- Embedding of `SlackHandler.handle_interactions` (slack_handler.py lines
646-791). The volume lookup runs unconditionally before the dispatch; each
recognized callback_id selects one AWSHandler operation with its message
templates; the change_instance branch short-circuits when the requested type
equals the current one; an unrecognized callback_id only logs a warning. The
dispatched background command is modelled on its provider-success path, so
its success message appears in `messages`. -/
def handle_interactions (cfg : Config) (env : Env) (user_id user_name : String)
    (callback_id : String) (values : FormValues) : InteractionResult :=
  let volume := get_volume_for_user env.volumes user_name
  let lookup : List Call := [Call.describeVolumes user_name]
  if callback_id == "submit_key" then
    { trace := lookup ++ create_key_pair_calls user_name values.public_key,
      messages := [(user_id, "Public key updated successfully.")],
      warning := false }
  else if callback_id == "launch_instance" then
    let ami := cfg.amis values.ami_choice
    let root_ebs_size := min values.root_ebs_size cfg.max_volume_size
    let mount_option := values.mount_option
    let script := ami.startup_script.getD "" ++ values.startup_script.getD ""
    let launched := launch_ec2_instance ami.id ami.user values.instance_type_choice
      root_ebs_size user_name (some script) (some mount_option)
      (volume.map (fun v => v.id)) env.new_instance_id
    let ssh_user := if mount_option != "efs_root" then ami.user else "root"
    { trace := lookup ++ launched.2,
      messages := [(user_id,
        "EC2 instance " ++ launched.1 ++ " launched successfully. "
          ++ "You can now run: ssh " ++ ssh_user ++ "@" ++ launched.1)],
      warning := false }
  else if callback_id == "terminate_instance" || callback_id == "stop_instance"
      || callback_id == "start_instance" then
    let selected := values.selected_instances
    let calls :=
      if callback_id == "terminate_instance" then terminate_ec2_instances selected
      else if callback_id == "stop_instance" then stop_ec2_instances selected
      else start_ec2_instances selected
    let success :=
      if callback_id == "terminate_instance" then
        "Terminated instances: " ++ String.intercalate ", " selected
      else if callback_id == "stop_instance" then
        "Stopped instances: " ++ String.intercalate ", " selected
      else "Started instances: " ++ String.intercalate ", " selected
    { trace := lookup ++ calls,
      messages := [(user_id, success)],
      warning := false }
  else if callback_id == "change_instance" then
    let instance_id := values.change_selected_instance
    let new_instance_type := values.new_instance_type
    let instance_type := env.instance_type_of instance_id
    if new_instance_type == instance_type then
      { trace := lookup ++ [Call.describeInstances [instance_id]],
        messages := [(user_id, "Instance " ++ instance_id
          ++ " is already of type " ++ new_instance_type ++ ".")],
        warning := false }
    else
      { trace := lookup ++ [Call.describeInstances [instance_id]]
          ++ change_instance_type instance_id new_instance_type,
        messages := [(user_id, "Changed instance " ++ instance_id ++ " to type "
          ++ new_instance_type ++ " successfully.")],
        warning := false }
  else if callback_id == "create_volume" then
    let volume_size := min values.volume_size cfg.max_volume_size
    let created := create_volume user_name volume_size env.new_volume_id
    { trace := lookup ++ created.2,
      messages := [(user_id, "EBS volume of " ++ toString volume_size
        ++ " GiB created successfully.")],
      warning := false }
  else if callback_id == "resize_volume" then
    let volume_size := min values.volume_size cfg.max_volume_size
    { trace := lookup
        ++ (resize_volume env.mod_oracle (volume.map (fun v => v.id)) volume_size).1,
      messages := [(user_id, "EBS volume resized to " ++ toString volume_size
        ++ " GiB successfully. Remember to run resize2fs to resize the filesystem.")],
      warning := false }
  else if callback_id == "attach_volume" then
    let instance_id := values.selected_instance
    { trace := lookup ++ attach_volume instance_id (volume.map (fun v => v.id)),
      messages := [(user_id, "EBS volume attached to instance " ++ instance_id
        ++ " successfully.")],
      warning := false }
  else
    { trace := lookup, messages := [], warning := true }

/-- Result of opening a modal from a slash command: the provider calls made by
the guard, the ephemeral reply when the guard rejects, and the callback_id of
the modal that was opened (if any). -/
structure ModalResult where
  trace : List Call
  reply : Option String
  modal_opened : Option String
  deriving DecidableEq, Repr

/-- Embedding of `SlackHandler.open_volume_create_modal` (slack_handler.py
lines 514-558): look up the volume of the user; when one exists, short-circuit
with the ephemeral duplicate-volume reply and open no modal; otherwise open
the create_volume modal. -/
def open_volume_create_modal (volumes : List Volume) (user_name : String) :
    ModalResult :=
  match get_volume_for_user volumes user_name with
  | some _ =>
    { trace := [Call.describeVolumes user_name],
      reply := some "EBS volume already exists, please /ebs destroy first.",
      modal_opened := none }
  | none =>
    { trace := [Call.describeVolumes user_name],
      reply := none,
      modal_opened := some "create_volume" }

/-- Helper for the Python `str.split()` semantics (split on whitespace runs,
no empty words): accumulates the current word reversed. -/
def pySplitGo : List Char → List Char → List String
  | [], acc => if acc.isEmpty then [] else [String.mk acc.reverse]
  | c :: cs, acc =>
    if c.isWhitespace then
      (if acc.isEmpty then [] else [String.mk acc.reverse]) ++ pySplitGo cs []
    else pySplitGo cs (c :: acc)

/-- Python `str.split()` with no argument: whitespace-separated words, an
empty string giving the empty list. -/
def pySplit (s : String) : List String :=
  pySplitGo s.toList []

/-- A Python runtime error escaping `handle_ebs_commands`. -/
inductive PyError where
  | indexError
  | assertionError
  deriving DecidableEq, Repr

/-- What `handle_ebs_commands` returns to the webhook layer: an ephemeral
reply, a call into one of the modal-opening routines (named by the callback_id
of the modal that routine submits), or an operation dispatched to
`handle_aws_command` (its provider calls plus the immediate ephemeral reply). -/
inductive EbsOutcome where
  | reply (text : String)
  | openModalRoutine (callback_id : String)
  | dispatched (calls : List Call) (text : String)
  deriving DecidableEq, Repr

/-- Embedding of `SlackHandler.handle_ebs_commands` (slack_handler.py lines
144-208): keyword check on `sub_command.split()[0]` (an IndexError on an empty
split), the create branch, the volume guard, then the literal sub_command
comparisons, ending at `assert False` when none matches. -/
def handle_ebs_commands (volumes : List Volume)
    (sub_command user_id user_name : String) : Except PyError EbsOutcome :=
  match pySplit sub_command with
  | [] => Except.error PyError.indexError
  | first :: _ =>
    if ¬ (["create", "resize", "attach", "detach", "destroy"].contains first) then
      Except.ok (EbsOutcome.reply
        "Command must be one of: create, resize, attach, detach or destroy.")
    else if sub_command == "create" then
      Except.ok (match open_volume_create_modal volumes user_name with
        | m => match m.modal_opened with
          | some cb => EbsOutcome.openModalRoutine cb
          | none => EbsOutcome.reply (m.reply.getD ""))
    else
      match get_volume_for_user volumes user_name with
      | none => Except.ok (EbsOutcome.reply
          "No EBS volume found. Please /ebs create first.")
      | some volume =>
        if sub_command == "resize" then
          Except.ok (EbsOutcome.openModalRoutine "resize_volume")
        else if sub_command == "attach" then
          Except.ok (EbsOutcome.openModalRoutine "attach_volume")
        else if sub_command == "detach" then
          Except.ok (EbsOutcome.dispatched
            (detach_volume volume.id volume.attachments)
            "Detaching EBS volume...")
        else if sub_command == "destroy" then
          Except.ok (EbsOutcome.reply
            ("If you are sure you want to destroy the EBS volume, "
              ++ "please type: /ebs destroy please."))
        else if sub_command == "destroy please" then
          Except.ok (EbsOutcome.dispatched (destroy_volume volume.id)
            "Destroying EBS volume...")
        else Except.error PyError.assertionError

/-- Fixture: a volume owned by alice with no attachments. -/
def sampleVolume : Volume :=
  { id := "vol-1", size := 20, user := "alice", attachments := [] }

/-- Fixture: an AMI catalog entry. -/
def sampleAmi : AmiInfo :=
  { id := "ami-1", user := "ubuntu", startup_script := some "" }

/-- Fixture: a configuration with maximum volume size 100. -/
def sampleConfig : Config :=
  { max_volume_size := 100, amis := fun _ => sampleAmi, zone := "eu-west-2a" }

/-- Fixture: an environment where alice owns sampleVolume, every instance has
type t3.micro, and volume modifications never finish. -/
def sampleEnv : Env :=
  { volumes := [sampleVolume],
    instance_type_of := fun _ => "t3.micro",
    new_instance_id := "i-123",
    new_volume_id := "vol-9",
    mod_oracle := fun _ => ModPoll.modState "completed" }

/-- Fixture: form values requesting volume size 200 and the current instance
type t3.micro. -/
def sampleValues : FormValues :=
  { public_key := "ssh-rsa AAA",
    ami_choice := "ubuntu",
    instance_type_choice := "t3.large",
    root_ebs_size := 20,
    mount_option := "none",
    startup_script := none,
    selected_instances := ["i-123"],
    selected_instance := "i-123",
    change_selected_instance := "i-123",
    new_instance_type := "t3.micro",
    volume_size := 200 }

/-- Fixture: a poll oracle whose modification state never reaches completed. -/
def sampleOracle : Nat → ModPoll :=
  fun _ => ModPoll.modState "optimizing"

/-! Helper lemmas about the key-pair table. -/

/-- When no entry carries the name, filtering by the name yields nothing. -/
lemma filter_eq_nil_of_any_eq_false (st : KeyState) (u : String)
    (h : st.any (fun p => p.1 == u) = false) :
    st.filter (fun p => p.1 == u) = [] := by
  induction st with
  | nil => rfl
  | cons a t ih =>
    rw [List.any_cons, Bool.or_eq_false_iff] at h
    rw [List.filter_cons, h.1, ih h.2]
    rfl

/-- Filtering away the name leaves nothing that carries it. -/
lemma filter_beq_of_filter_bne (st : KeyState) (u : String) :
    (st.filter (fun p => p.1 != u)).filter (fun p => p.1 == u) = [] := by
  induction st with
  | nil => rfl
  | cons a t ih =>
    rw [List.filter_cons]
    by_cases ha : (a.1 != u) = true
    · rw [if_pos ha, List.filter_cons]
      have hb : ¬ ((a.1 == u) = true) := by
        intro hc
        simp [bne, hc] at ha
      rw [if_neg hb]
      exact ih
    · rw [if_neg ha]
      exact ih

/-- After filtering away the name, no entry with the name can be found. -/
lemma any_filter_bne (st : KeyState) (u : String) :
    (st.filter (fun p => p.1 != u)).any (fun p => p.1 == u) = false := by
  induction st with
  | nil => rfl
  | cons a t ih =>
    rw [List.filter_cons]
    by_cases ha : (a.1 != u) = true
    · rw [if_pos ha, List.any_cons, Bool.or_eq_false_iff]
      refine ⟨?_, ih⟩
      cases hc : (a.1 == u) with
      | false => rfl
      | true =>
        exact absurd ha (by simp [bne, hc])
    · rw [if_neg ha]
      exact ih

/-- Helper for C4: `create_key_pair` always succeeds and leaves exactly the
new key pair under the user name. -/
lemma create_key_pair_ok (st : KeyState) (u k : String) :
    ∃ st2, create_key_pair st u k = Except.ok st2 ∧
      st2.filter (fun p => p.1 == u) = [(u, k)] := by
  unfold create_key_pair delete_key_pair import_key_pair
  by_cases h : st.any (fun p => p.1 == u) = true
  · refine ⟨st.filter (fun p => p.1 != u) ++ [(u, k)], ?_, ?_⟩
    · simp only [h, if_true, any_filter_bne, if_false, Bool.false_eq_true]
    · rw [List.filter_append, filter_beq_of_filter_bne]
      simp [List.filter_cons]
  · have hb : st.any (fun p => p.1 == u) = false := by
      cases hh : st.any (fun p => p.1 == u) with
      | false => rfl
      | true => exact absurd hh h
    refine ⟨st ++ [(u, k)], ?_, ?_⟩
    · simp only [hb, Bool.false_eq_true, if_false]
    · rw [List.filter_append, filter_eq_nil_of_any_eq_false st u hb]
      simp [List.filter_cons]

/-- C4: for every user and every sequence of two key submissions, both
submissions succeed and the second import leaves exactly one key pair
resolvable for that user, holding the second key: delete-if-exists, then
bring in the new key (last-write-wins, not a merge). -/
theorem c4_key_import_last_write_wins (st : KeyState) (user_name k1 k2 : String) :
    ∃ st1 st2,
      create_key_pair st user_name k1 = Except.ok st1 ∧
      create_key_pair st1 user_name k2 = Except.ok st2 ∧
      resolvable_keys st2 user_name = [k2] ∧
      (st2.filter (fun p => p.1 == user_name)).length = 1 := by
  obtain ⟨st1, h1, _⟩ := create_key_pair_ok st user_name k1
  obtain ⟨st2, h2, hf⟩ := create_key_pair_ok st1 user_name k2
  refine ⟨st1, st2, h1, h2, ?_, ?_⟩
  · rw [resolvable_keys, hf]
    rfl
  · rw [hf]
    rfl

/-- Helper for C7: the mapped detach calls count one per attachment. -/
lemma countP_detach_map (volume_id : String) (l : List Attachment) :
    (l.map (fun a => Call.detachVolume volume_id a.instanceId a.device false)).countP
      Call.isDetach = l.length := by
  induction l with
  | nil => rfl
  | cons a t ih => simp [List.countP_cons, Call.isDetach, ih]

/-- C7: for every detach-volume invocation with a non-empty attachment list,
one provider detach call is issued per attachment on the volume, each
addressed by that attachment instance id and device path, and the single wait
for the available state comes after every detach call. -/
theorem c7_detach_every_attachment (volume_id : String)
    (attachments : List Attachment) (h : attachments ≠ []) :
    (∀ a ∈ attachments,
      Call.detachVolume volume_id a.instanceId a.device false
        ∈ detach_volume volume_id attachments) ∧
    (detach_volume volume_id attachments).countP Call.isDetach
      = attachments.length ∧
    (detach_volume volume_id attachments).getLast?
      = some (Call.waitVolumeAvailable volume_id) ∧
    (∀ c ∈ (detach_volume volume_id attachments).dropLast,
      Call.isDetach c = true) := by
  refine ⟨?_, ?_, ?_, ?_⟩
  · intro a ha
    exact List.mem_append_left _ (List.mem_map_of_mem _ ha)
  · rw [detach_volume, List.countP_append, countP_detach_map]
    simp [List.countP_cons, Call.isDetach]
  · rw [detach_volume]
    exact List.getLast?_concat _
  · rw [detach_volume, List.dropLast_concat]
    intro c hc
    obtain ⟨a, _, rfl⟩ := List.mem_map.mp hc
    rfl

/-- Witness for C7: a volume with two attachments gets two detach calls. -/
theorem c7_witness :
    (detach_volume "vol-1"
      [{ instanceId := "i-1", device := "/dev/sdh" },
       { instanceId := "i-2", device := "/dev/xvdh" }]).countP Call.isDetach = 2 := by
  exact (c7_detach_every_attachment "vol-1"
    [{ instanceId := "i-1", device := "/dev/sdh" },
     { instanceId := "i-2", device := "/dev/xvdh" }] (by decide)).2.1

/-- C3: for every operation dispatched by handle_aws_command, the background
thread posts exactly one message to the initiating user: the success template
applied to the return value when the function returns, the error template
applied to the error when it raises ClientError; any other exception leaves
no message and escapes the thread uncaught. -/
theorem c3_handle_aws_command_notification {α : Type} (user_id : String)
    (success_message : α → String) (error_message : String → String)
    (v : α) (e e2 : String) :
    handle_aws_command (FnResult.ok v) user_id success_message error_message
      = { messages := [(user_id, success_message v)], uncaught := none } ∧
    handle_aws_command (FnResult.clientError e) user_id success_message
        error_message
      = { messages := [(user_id, error_message e)], uncaught := none } ∧
    handle_aws_command (FnResult.otherError e2) user_id success_message
        error_message
      = { messages := [], uncaught := some e2 } ∧
    (∀ r : FnResult α,
      ((handle_aws_command r user_id success_message error_message).uncaught
          = none
        ↔ (handle_aws_command r user_id success_message
            error_message).messages.length = 1)) := by
  refine ⟨rfl, rfl, rfl, ?_⟩
  intro r
  cases r <;> simp [handle_aws_command]

/-- C10: handle_ebs_commands is not total on sub_command: the empty string
raises IndexError at `sub_command.split()[0]`, and the input `resize 50` from
a user who owns a volume falls through every handled comparison to the
trailing `assert False`, raising AssertionError instead of the usage reply. -/
theorem c10_handle_ebs_commands_partiality :
    (∀ (volumes : List Volume) (user_id user_name : String),
      handle_ebs_commands volumes "" user_id user_name
        = Except.error PyError.indexError) ∧
    handle_ebs_commands [sampleVolume] "resize 50" "U1" "alice"
      = Except.error PyError.assertionError := by
  exact ⟨fun _ _ _ => rfl, rfl⟩

/-! Helper lemmas about the resize poll loop. -/

/-- Every sleep in the poll loop lasts one second. -/
lemma resize_poll_sleep_one (oracle : Nat → ModPoll) (vid : Option String) :
    ∀ fuel i c, c ∈ resize_poll oracle vid fuel i →
      Call.isSleepCall c = true → c = Call.sleep 1 := by
  intro fuel
  induction fuel with
  | zero =>
    intro i c hc
    simp [resize_poll] at hc
  | succ n ih =>
    intro i c hc hs
    rw [resize_poll] at hc
    rcases List.mem_cons.mp hc with rfl | hc2
    · cases hs
    · split at hc2
      · simp at hc2
      · split at hc2
        · simp at hc2
        · rcases List.mem_cons.mp hc2 with rfl | hc3
          · rfl
          · exact ih (i + 1) c hc3 hs

/-- The poll loop issues at most `fuel` describe calls. -/
lemma resize_poll_describe_le (oracle : Nat → ModPoll) (vid : Option String) :
    ∀ fuel i, (resize_poll oracle vid fuel i).countP Call.isPollDescribe ≤ fuel := by
  intro fuel
  induction fuel with
  | zero =>
    intro i
    simp [resize_poll]
  | succ n ih =>
    intro i
    rw [resize_poll]
    cases ho : oracle i with
    | noModifications =>
      simp [List.countP_cons, Call.isPollDescribe]
    | modState s =>
      by_cases hcomp : (s == "completed") = true
      · simp [hcomp, List.countP_cons, Call.isPollDescribe]
      · have h1 := ih (i + 1)
        simp [hcomp, List.countP_cons, Call.isPollDescribe]
        omega

/-- A poll answer that is empty or completed stops the loop at once. -/
lemma resize_poll_stop (oracle : Nat → ModPoll) (vid : Option String)
    (fuel i : Nat) (h : (oracle i).isOngoing = false) :
    resize_poll oracle vid (fuel + 1) i
      = [Call.describeVolumesModifications vid] := by
  rw [resize_poll]
  cases ho : oracle i with
  | noModifications => rfl
  | modState s =>
    rw [ho] at h
    have hcomp : (s == "completed") = true := by
      simpa [ModPoll.isOngoing, bne] using h
    simp [hcomp]

/-- When every answer inside the budget keeps the loop going, the full budget
of describe calls is spent. -/
lemma resize_poll_describe_exhaust (oracle : Nat → ModPoll) (vid : Option String) :
    ∀ fuel i, (∀ j, i ≤ j → j < i + fuel → (oracle j).isOngoing = true) →
      (resize_poll oracle vid fuel i).countP Call.isPollDescribe = fuel := by
  intro fuel
  induction fuel with
  | zero =>
    intro i _
    simp [resize_poll]
  | succ n ih =>
    intro i hall
    have hi : (oracle i).isOngoing = true := hall i le_rfl (by omega)
    rw [resize_poll]
    cases ho : oracle i with
    | noModifications =>
      rw [ho] at hi
      simp [ModPoll.isOngoing] at hi
    | modState s =>
      rw [ho] at hi
      have hcomp : ¬ ((s == "completed") = true) := by
        intro hc
        simp [ModPoll.isOngoing, bne, hc] at hi
      have hrec := ih (i + 1) (fun j hj1 hj2 => hall j (by omega) (by omega))
      simp [hcomp, List.countP_cons, Call.isPollDescribe]
      omega

/-- C8: resize_volume never raises on poll exhaustion: after the modify call
it polls the modification state at a fixed one-second interval for at most 60
attempts, stops after a single poll when the modification list is empty or
the state is completed, and still returns normally (no error value) when all
60 attempts keep reporting an ongoing modification. -/
theorem c8_resize_poll_budget (oracle : Nat → ModPoll) (volume_id : Option String)
    (size : Nat) :
    (resize_volume oracle volume_id size).2 = Except.ok () ∧
    (resize_volume oracle volume_id size).1.head?
      = some (Call.modifyVolume volume_id size) ∧
    (resize_volume oracle volume_id size).1.countP Call.isPollDescribe ≤ 60 ∧
    (∀ c ∈ (resize_volume oracle volume_id size).1,
      Call.isSleepCall c = true → c = Call.sleep 1) ∧
    ((oracle 0).isOngoing = false →
      (resize_volume oracle volume_id size).1.countP Call.isPollDescribe = 1) ∧
    ((∀ j, j < 60 → (oracle j).isOngoing = true) →
      (resize_volume oracle volume_id size).1.countP Call.isPollDescribe = 60) := by
  refine ⟨rfl, rfl, ?_, ?_, ?_, ?_⟩
  · rw [resize_volume]
    have := resize_poll_describe_le oracle volume_id 60 0
    simp [List.countP_cons, Call.isPollDescribe]
    omega
  · intro c hc hs
    rw [resize_volume] at hc
    rcases List.mem_cons.mp hc with rfl | hc2
    · cases hs
    · exact resize_poll_sleep_one oracle volume_id 60 0 c hc2 hs
  · intro h0
    have hstop : resize_poll oracle volume_id 60 0
        = [Call.describeVolumesModifications volume_id] :=
      resize_poll_stop oracle volume_id 59 0 h0
    rw [resize_volume]
    simp [hstop, List.countP_cons, Call.isPollDescribe]
  · intro hall
    have hfull : (resize_poll oracle volume_id 60 0).countP Call.isPollDescribe
        = 60 :=
      resize_poll_describe_exhaust oracle volume_id 60 0
        (fun j _ hj2 => hall j (by omega))
    rw [resize_volume]
    simp [List.countP_cons, Call.isPollDescribe]
    omega

/-- Witness for C8: an oracle that never completes spends all 60 polls and
the call still returns without an error. -/
theorem c8_witness :
    (resize_volume sampleOracle (some "vol-1") 30).2 = Except.ok () ∧
    (resize_volume sampleOracle (some "vol-1") 30).1.countP
      Call.isPollDescribe = 60 := by
  have h := c8_resize_poll_budget sampleOracle (some "vol-1") 30
  exact ⟨h.1, h.2.2.2.2.2 (fun j _ => rfl)⟩

/-- C1: whenever a volume tagged with the owner already exists, the
create-volume flow is rejected at the modal-open guard with the duplicate
reply and no provider create call is made; the create_volume submission
branch performs no such re-check and issues the provider create call even
while the volume exists. -/
theorem c1_one_volume_guard (cfg : Config) (env : Env)
    (user_id user_name : String) (values : FormValues) (info : VolumeInfo)
    (h : get_volume_for_user env.volumes user_name = some info) :
    (open_volume_create_modal env.volumes user_name).reply
      = some "EBS volume already exists, please /ebs destroy first." ∧
    (open_volume_create_modal env.volumes user_name).modal_opened = none ∧
    (∀ c ∈ (open_volume_create_modal env.volumes user_name).trace,
      Call.isCreateVolume c = false) ∧
    Call.createVolume user_name (min values.volume_size cfg.max_volume_size)
      ∈ (handle_interactions cfg env user_id user_name "create_volume"
          values).trace := by
  refine ⟨?_, ?_, ?_, ?_⟩
  · rw [open_volume_create_modal, h]
  · rw [open_volume_create_modal, h]
  · intro c hc
    rw [open_volume_create_modal, h] at hc
    simp at hc
    subst hc
    rfl
  · simp [handle_interactions, create_volume]

/-- Witness for C1: alice already owns sampleVolume, so the guard replies
with the duplicate-volume text. -/
theorem c1_witness :
    (open_volume_create_modal [sampleVolume] "alice").reply
      = some "EBS volume already exists, please /ebs destroy first." := by
  exact (c1_one_volume_guard sampleConfig sampleEnv "U1" "alice" sampleValues
    { id := "vol-1", size := 20, attachments := [] } rfl).1

/-- C5: for every create-volume and resize-volume submission with requested
size s, the size handed to the provider is min(s, max_volume_size), the
success message reports that clamped size, sizes at or below the maximum pass
through unchanged, and sizes above it are clamped to the maximum with no
error reply. -/
theorem c5_volume_size_clamped (cfg : Config) (env : Env)
    (user_id user_name : String) (values : FormValues) :
    Call.createVolume user_name (min values.volume_size cfg.max_volume_size)
      ∈ (handle_interactions cfg env user_id user_name "create_volume"
          values).trace ∧
    (handle_interactions cfg env user_id user_name "create_volume"
        values).messages
      = [(user_id, "EBS volume of "
          ++ toString (min values.volume_size cfg.max_volume_size)
          ++ " GiB created successfully.")] ∧
    Call.modifyVolume
        ((get_volume_for_user env.volumes user_name).map (fun v => v.id))
        (min values.volume_size cfg.max_volume_size)
      ∈ (handle_interactions cfg env user_id user_name "resize_volume"
          values).trace ∧
    (handle_interactions cfg env user_id user_name "resize_volume"
        values).messages
      = [(user_id, "EBS volume resized to "
          ++ toString (min values.volume_size cfg.max_volume_size)
          ++ " GiB successfully. Remember to run resize2fs to resize the filesystem.")] ∧
    (values.volume_size ≤ cfg.max_volume_size →
      min values.volume_size cfg.max_volume_size = values.volume_size) ∧
    (cfg.max_volume_size ≤ values.volume_size →
      min values.volume_size cfg.max_volume_size = cfg.max_volume_size) := by
  refine ⟨?_, ?_, ?_, ?_, ?_, ?_⟩
  · simp [handle_interactions, create_volume]
  · simp [handle_interactions]
  · simp [handle_interactions, resize_volume]
  · simp [handle_interactions]
  · intro hle
    exact min_eq_left hle
  · intro hge
    exact min_eq_right hge

/-- Witness for C5: requested size 200 against maximum 100 is clamped to 100
and the clamped value is what the provider create call receives. -/
theorem c5_witness :
    min 200 100 = 100 ∧
    Call.createVolume "alice" (min 200 100)
      ∈ (handle_interactions sampleConfig sampleEnv "U1" "alice" "create_volume"
          sampleValues).trace := by
  have h := c5_volume_size_clamped sampleConfig sampleEnv "U1" "alice" sampleValues
  exact ⟨h.2.2.2.2.2 (by decide), h.1⟩

/-- C6: when the requested type equals the current instance type, the
change_instance branch posts the already-of-type message and its trace holds
no mutating provider call; the Orchestrator change_instance_type itself
checks nothing and always stops, modifies and restarts the instance. -/
theorem c6_change_instance_noop (cfg : Config) (env : Env)
    (user_id user_name : String) (values : FormValues)
    (h : values.new_instance_type
      = env.instance_type_of values.change_selected_instance) :
    (handle_interactions cfg env user_id user_name "change_instance"
        values).messages
      = [(user_id, "Instance " ++ values.change_selected_instance
          ++ " is already of type " ++ values.new_instance_type ++ ".")] ∧
    (∀ c ∈ (handle_interactions cfg env user_id user_name "change_instance"
        values).trace, Call.isMutating c = false) ∧
    (∀ instance_id instance_type : String,
      change_instance_type instance_id instance_type
        = [Call.stopInstances [instance_id],
           Call.waitInstanceStopped [instance_id],
           Call.modifyInstanceAttribute instance_id "instanceType" instance_type,
           Call.startInstances [instance_id],
           Call.waitInstanceRunning [instance_id]]) := by
  have hb : (values.new_instance_type
      == env.instance_type_of values.change_selected_instance) = true :=
    beq_iff_eq.mpr h
  refine ⟨?_, ?_, fun instance_id instance_type => rfl⟩
  · simp [handle_interactions, hb]
  · intro c hc
    simp [handle_interactions, hb] at hc
    rcases hc with rfl | rfl <;> rfl

/-- Witness for C6: requesting t3.micro for an instance already of type
t3.micro yields the already-of-type message. -/
theorem c6_witness :
    (handle_interactions sampleConfig sampleEnv "U1" "alice" "change_instance"
        sampleValues).messages
      = [("U1", "Instance " ++ "i-123" ++ " is already of type "
          ++ "t3.micro" ++ ".")] := by
  exact (c6_change_instance_noop sampleConfig sampleEnv "U1" "alice"
    sampleValues rfl).1

/-- C9: for every modal submission whose callback_id is none of the nine
recognized identifiers, handle_interactions logs the warning and returns with
no message posted; the only provider interaction is the unconditional
read-only volume lookup performed before the dispatch. -/
theorem c9_unrecognized_callback (cfg : Config) (env : Env)
    (user_id user_name callback_id : String) (values : FormValues)
    (h : callback_id ∉ ["submit_key", "launch_instance", "terminate_instance",
      "stop_instance", "start_instance", "change_instance", "create_volume",
      "resize_volume", "attach_volume"]) :
    handle_interactions cfg env user_id user_name callback_id values
      = { trace := [Call.describeVolumes user_name], messages := [],
          warning := true } ∧
    (∀ c ∈ (handle_interactions cfg env user_id user_name callback_id
        values).trace, Call.isMutating c = false) := by
  simp at h
  obtain ⟨h1, h2, h3, h4, h5, h6, h7, h8, h9⟩ := h
  have hmain : handle_interactions cfg env user_id user_name callback_id values
      = { trace := [Call.describeVolumes user_name], messages := [],
          warning := true } := by
    simp [handle_interactions, h1, h2, h3, h4, h5, h6, h7, h8, h9]
  refine ⟨hmain, ?_⟩
  rw [hmain]
  intro c hc
  simp at hc
  subst hc
  rfl

/-- Witness for C9: an unknown callback_id leaves only the volume lookup in
the trace, posts nothing, and sets the warning flag. -/
theorem c9_witness :
    handle_interactions sampleConfig sampleEnv "U1" "alice" "bogus_callback"
        sampleValues
      = { trace := [Call.describeVolumes "alice"], messages := [],
          warning := true } := by
  exact (c9_unrecognized_callback sampleConfig sampleEnv "U1" "alice"
    "bogus_callback" sampleValues (by decide)).1

/-! Predicates and helpers for the launch call-order claim. -/

/-- Whether a call is an attach_volume provider call. -/
def Call.isAttachCall : Call → Bool
  | Call.attachVolume _ _ _ => true
  | _ => false

/-- Whether a call is the instance_status_ok waiter (the health check). -/
def Call.isWaitStatusOk : Call → Bool
  | Call.waitInstanceStatusOk _ => true
  | _ => false

/-- A map that preserves the user tag commutes with the owner filter. -/
lemma filter_map_user (g : Volume → Volume) (hg : ∀ v, (g v).user = v.user)
    (user_name : String) (l : List Volume) :
    (l.map g).filter (fun v => v.user == user_name)
      = (l.filter (fun v => v.user == user_name)).map g := by
  induction l with
  | nil => rfl
  | cons v t ih =>
    rw [List.map_cons, List.filter_cons, List.filter_cons, hg v]
    by_cases hv : (v.user == user_name) = true
    · rw [if_pos hv, if_pos hv, List.map_cons, ih]
    · rw [if_neg hv, if_neg hv, ih]

/-- Volume lookup after a user-preserving map returns the mapped first match. -/
lemma get_volume_map (g : Volume → Volume) (hg : ∀ v, (g v).user = v.user)
    (volumes : List Volume) (user_name : String) (v : Volume)
    (rest : List Volume)
    (hf : volumes.filter (fun w => w.user == user_name) = v :: rest) :
    get_volume_for_user (volumes.map g) user_name
      = some { id := (g v).id, size := (g v).size,
               attachments := (g v).attachments } := by
  unfold get_volume_for_user
  rw [filter_map_user g hg user_name volumes, hf, List.map_cons]

/-- A successful volume lookup exposes the first filtered volume. -/
lemma get_volume_eq_first (volumes : List Volume) (user_name : String)
    (info : VolumeInfo)
    (h : get_volume_for_user volumes user_name = some info) :
    ∃ v rest, volumes.filter (fun w => w.user == user_name) = v :: rest ∧
      ({ id := v.id, size := v.size, attachments := v.attachments }
        : VolumeInfo) = info := by
  unfold get_volume_for_user at h
  cases hf : volumes.filter (fun w => w.user == user_name) with
  | nil =>
    rw [hf] at h
    simp at h
  | cons v rest =>
    rw [hf] at h
    exact ⟨v, rest, rfl, Option.some.inj h⟩

/-- C2 counterexample: at a concrete ebs-mount launch, the health-check
waiter does NOT precede the attach call, refuting the claim that the volume
is attached only after the instance passed the provider health check. -/
theorem c2_counterexample :
    ¬ ((launch_ec2_instance "ami-1" "ubuntu" "t3.large" 20 "alice" none
          (some "ebs") (some "vol-1") "i-123").2.findIdx Call.isWaitStatusOk
        < (launch_ec2_instance "ami-1" "ubuntu" "t3.large" 20 "alice" none
          (some "ebs") (some "vol-1") "i-123").2.findIdx Call.isAttachCall) := by
  decide

/-- C2 (amended): for every launch request with mount option ebs, the owner
volume is attached after the instance has reached the running state but
before the final health-check waiter; on success the trace ends with the
health check and the owner volume carries exactly one new attachment pointing
at the returned instance id. -/
theorem c2_launch_ebs_attach_order (ami_id ami_user instance_type : String)
    (root_ebs_size : Nat) (user_name : String) (startup_script : Option String)
    (run_instance_id : String) (volumes : List Volume) (info : VolumeInfo)
    (h : get_volume_for_user volumes user_name = some info) :
    (launch_ec2_instance ami_id ami_user instance_type root_ebs_size user_name
        startup_script (some "ebs") (some info.id) run_instance_id).1
      = run_instance_id ∧
    (launch_ec2_instance ami_id ami_user instance_type root_ebs_size user_name
        startup_script (some "ebs") (some info.id) run_instance_id).2
      = [Call.runInstances ami_id instance_type user_name root_ebs_size,
         Call.waitInstanceRunning [run_instance_id],
         Call.attachVolume "/dev/sdh" run_instance_id (some info.id),
         Call.waitVolumeInUse (some info.id),
         Call.waitInstanceStatusOk [run_instance_id]] ∧
    (∃ info2,
      get_volume_for_user
        (runCalls volumes
          (launch_ec2_instance ami_id ami_user instance_type root_ebs_size
            user_name startup_script (some "ebs") (some info.id)
            run_instance_id).2) user_name = some info2 ∧
      info2.attachments
        = info.attachments
          ++ [{ instanceId := run_instance_id, device := "/dev/sdh" }]) := by
  have htrace : (launch_ec2_instance ami_id ami_user instance_type root_ebs_size
      user_name startup_script (some "ebs") (some info.id) run_instance_id).2
      = [Call.runInstances ami_id instance_type user_name root_ebs_size,
         Call.waitInstanceRunning [run_instance_id],
         Call.attachVolume "/dev/sdh" run_instance_id (some info.id),
         Call.waitVolumeInUse (some info.id),
         Call.waitInstanceStatusOk [run_instance_id]] := rfl
  refine ⟨rfl, htrace, ?_⟩
  have hrun : runCalls volumes
      (launch_ec2_instance ami_id ami_user instance_type root_ebs_size
        user_name startup_script (some "ebs") (some info.id) run_instance_id).2
      = volumes.map (fun v =>
          if v.id == info.id then
            { v with attachments := v.attachments
                ++ [{ instanceId := run_instance_id, device := "/dev/sdh" }] }
          else v) := by
    rw [htrace]
    rfl
  rw [hrun]
  obtain ⟨v, rest, hf, hv⟩ := get_volume_eq_first volumes user_name info h
  subst hv
  refine ⟨_, get_volume_map _ (fun w => by
    by_cases hc : (w.id == v.id) = true <;> simp [hc]) volumes user_name v rest hf, ?_⟩
  simp

/-- Witness for C2 (amended): launching with the ebs mount against the
volume of alice leaves it attached to the new instance. -/
theorem c2_witness :
    ∃ info2,
      get_volume_for_user
        (runCalls [sampleVolume]
          (launch_ec2_instance "ami-1" "ubuntu" "t3.large" 20 "alice" none
            (some "ebs") (some "vol-1") "i-123").2) "alice" = some info2 ∧
      info2.attachments
        = [] ++ [{ instanceId := "i-123", device := "/dev/sdh" }] := by
  exact (c2_launch_ebs_attach_order "ami-1" "ubuntu" "t3.large" 20 "alice" none
    "i-123" [sampleVolume] { id := "vol-1", size := 20, attachments := [] }
    rfl).2.2

end EC2Slackbot
